import Mathlib

/-!
Shallow embedding of the DARIArep offline-first sync subsystem:
the local persistent store and mutation queue (`services/offline.ts`),
the sync engine (`services/sync.ts`: `syncDown`, `syncUp`,
`processMutation`, `withOfflineFallback`), and the dashboard's
`handleStartVisit` guard (`pages/Dashboard.tsx`).

JavaScript promises are modelled by explicit state passing plus
`Except`-style results; a thrown error is an `Except.error`, a resolved
promise an `Except.ok`.  The remote store (Supabase) is an oracle of
responses; durable storage (localforage) is a record of collections.
-/

namespace DariaRep

/-- Shape of a Supabase error object: a string `code` (e.g. `"23505"` for a
unique-constraint violation) and a message. -/
structure SbError where
  code : String
  message : String
  deriving DecidableEq

/-- A thrown JavaScript error: either a plain `new Error(message)` or a
Supabase error object rethrown by the sync layer. -/
inductive JSError where
  | err (message : String)
  | sbError (e : SbError)
  deriving DecidableEq

/-- The message carried by a thrown error. -/
def JSError.msg : JSError → String
  | .err m => m
  | .sbError e => e.message

/-- The value a promise resolves with, as far as the claims need it:
`undefined` (a `Promise<void>` resolution) or a number. -/
inductive JSValue where
  | undef
  | num (n : Nat)
  deriving DecidableEq

instance {ε α : Type} [DecidableEq ε] [DecidableEq α] :
    DecidableEq (Except ε α) := fun a b =>
  match a, b with
  | .ok x, .ok y => decidable_of_iff (x = y) (by simp)
  | .error x, .error y => decidable_of_iff (x = y) (by simp)
  | .ok _, .error _ => isFalse (by simp)
  | .error _, .ok _ => isFalse (by simp)

/-- A mutation payload (`payload: any` in the source): a JSON-like bag of
fields; a `none` value stands for JSON `null`. -/
def Payload : Type := List (String × Option String)

instance : DecidableEq Payload := by
  unfold Payload; infer_instance

/-- Operation kind of a queued mutation. -/
inductive Operation where
  | insert
  | update
  | upsert
  | delete
  deriving DecidableEq

/-- The `status` of a client row (`'active' | 'inactive'`). -/
inductive ClientStatus where
  | active
  | inactive
  deriving DecidableEq

/-- The `status` of a visit row. -/
inductive VisitStatus where
  | scheduled
  | in_progress
  | completed
  | cancelled
  deriving DecidableEq

/-- The `status` of an order row. -/
inductive OrderStatus where
  | draft
  | pending
  | confirmed
  | shipped
  | delivered
  | cancelled
  deriving DecidableEq

/-- The `status` of a rep task row. -/
inductive TaskStatus where
  | pending
  | in_progress
  | completed
  | cancelled
  deriving DecidableEq

/-- The `priority` of tasks and follow-ups (`'low' | 'medium' | 'high'`). -/
inductive Priority where
  | low
  | medium
  | high
  deriving DecidableEq

/-- The `Client` record (`services/offline.ts`). -/
structure Client where
  id : String
  name : String
  email : Option String
  phone : Option String
  address : Option String
  status : ClientStatus
  created_at : String
  deriving DecidableEq

/-- The `Product` record (`services/offline.ts`). -/
structure Product where
  id : String
  name : String
  description : Option String
  price : Int
  category : Option String
  sku : Option String
  created_at : String
  updated_at : String
  deriving DecidableEq

/-- The `Visit` record (`services/offline.ts`). -/
structure Visit where
  id : String
  rep_id : String
  client_id : String
  start_time : String
  end_time : Option String
  notes : Option String
  status : VisitStatus
  created_at : String
  updated_at : String
  deriving DecidableEq

/-- The `Order` record (`services/offline.ts`). -/
structure Order where
  id : String
  rep_id : String
  client_id : String
  visit_id : Option String
  total_amount : Int
  status : OrderStatus
  order_date : String
  created_at : String
  updated_at : String
  deriving DecidableEq

/-- The `OrderItem` record (`services/offline.ts`). -/
structure OrderItem where
  id : String
  order_id : String
  product_id : String
  quantity : Int
  unit_price : Int
  total_price : Int
  created_at : String
  updated_at : String
  deriving DecidableEq

/-- The `ClientProduct` association record (`services/offline.ts`). -/
structure ClientProduct where
  id : String
  client_id : String
  product_id : String
  last_order_date : Option String
  last_order_quantity : Option Int
  preferred_quantity : Option Int
  notes : Option String
  created_at : String
  updated_at : String
  deriving DecidableEq

/-- The `RepTask` record (`services/offline.ts`); `end_date` is the due date,
an ISO date/timestamp string compared lexicographically by the remote
store's `gte`/`lt` filters. -/
structure RepTask where
  id : String
  rep_id : String
  title : String
  description : Option String
  end_date : String
  status : TaskStatus
  priority : Priority
  created_at : String
  updated_at : String
  deriving DecidableEq

/-- The `Budget` record (`services/offline.ts`).  `syncDown` filters budgets by
`.eq('month', parseInt(getCurrentMonth()))`, a numeric `YYYYMM` value, so
the month column is modelled as that number. -/
structure Budget where
  id : String
  rep_id : String
  month : Nat
  target_amount : Int
  current_amount : Int
  created_at : String
  updated_at : String
  deriving DecidableEq

/-- The `ClientFollowup` view record (`services/offline.ts`). -/
structure ClientFollowup where
  id : String
  client_id : String
  client_name : String
  rep_id : String
  last_visit_date : Option String
  last_order_date : Option String
  days_since_last_contact : Int
  follow_up_priority : Priority
  notes : Option String
  deriving DecidableEq

/-- The `ActiveVisit` marker (`services/offline.ts`). -/
structure ActiveVisit where
  visit_id : String
  client_id : String
  start_time : String
  notes : Option String
  deriving DecidableEq

/-- One `MutationQueueItem` (`services/offline.ts`): one pending write.  `id`
and `timestamp` are assigned at enqueue time; `synced` starts `false`. -/
structure MutationQueueItem where
  id : String
  table : String
  operation : Operation
  payload : Payload
  key : Option String
  timestamp : String
  synced : Bool
  deriving DecidableEq

/-- The localforage-backed store: one field per `STORAGE_KEYS` entry.
`getData` returns `[]` for a never-set collection, so collections are
plain lists; `active_visit` is the single optional marker. -/
structure LocalStore where
  clients : List Client
  products : List Product
  visits : List Visit
  orders : List Order
  order_items : List OrderItem
  client_products : List ClientProduct
  rep_tasks : List RepTask
  budgets : List Budget
  client_followups : List ClientFollowup
  active_visit : Option ActiveVisit
  mutation_queue : List MutationQueueItem
  deriving DecidableEq

/-- Byte-wise lexicographic "less than" on char lists, modelling the
remote store's ordering of ISO date strings. -/
def charListLtb : List Char → List Char → Bool
  | _, [] => false
  | [], _ :: _ => true
  | a :: as, b :: bs =>
    if a.toNat < b.toNat then true
    else if b.toNat < a.toNat then false
    else charListLtb as bs

/-- Strict comparison `a < b` on strings (lexicographic), as the remote store's `lt` filter
compares ISO date strings. -/
def strLtb (a b : String) : Bool := charListLtb a.data b.data

/-- Comparison `a ≤ b` on strings, as the remote store's `gte` filter compares ISO
date strings. -/
def strLeb (a b : String) : Bool := !(strLtb b a)

/-! ## Mutation queue operations (`services/offline.ts`) -/

/-- Model of `enqueueMutation`: appends a new item built from the caller's
`table`/`operation`/`payload`/`key` with a fresh id (`uuidv4()`), the
current timestamp, and `synced := false`, to the tail of the stored
queue.  The fresh id and timestamp are passed in explicitly. -/
def enqueueMutation (queue : List MutationQueueItem) (table : String)
    (operation : Operation) (payload : Payload) (key : Option String)
    (newId ts : String) : List MutationQueueItem :=
  queue ++ [{ id := newId, table := table, operation := operation,
              payload := payload, key := key, timestamp := ts, synced := false }]

/-- Model of `dequeueMutation`: returns `null` on an empty queue; otherwise shifts
the head off the queue, durably stores the shortened queue, and returns
the removed item (paired here with the new stored queue). -/
def dequeueMutation : List MutationQueueItem →
    Option (MutationQueueItem × List MutationQueueItem)
  | [] => none
  | m :: rest => some (m, rest)

/-- Model of `markMutationSynced`: maps over the stored queue, setting
`synced := true` on every item whose id matches. -/
def markMutationSynced (queue : List MutationQueueItem) (mutationId : String) :
    List MutationQueueItem :=
  queue.map (fun item => if item.id = mutationId then { item with synced := true } else item)

/-- Model of `removeSyncedMutations`: keeps only the unsynced items of the stored
queue. -/
def removeSyncedMutations (queue : List MutationQueueItem) : List MutationQueueItem :=
  queue.filter (fun item => !item.synced)

/-- Model of `getPendingMutationsCount`: the number of unsynced items. -/
def getPendingMutationsCount (queue : List MutationQueueItem) : Nat :=
  (queue.filter (fun item => !item.synced)).length

/-! ## Date helpers (`services/sync.ts`) -/

/-- The parts of a JavaScript `Date` the sync layer reads: `getFullYear()`
and the 0-based `getMonth()` (0..11). -/
structure JSDate where
  year : Nat
  month : Nat
  deriving DecidableEq

/-- Model of `String(n).padStart(2, '0')` for `n ≤ 99`. -/
def pad2 (n : Nat) : String :=
  if n < 10 then "0" ++ toString n else toString n

/-- Model of `getCurrentMonth` followed by `parseInt` at its use site: the source
builds `` `${year}${pad(month+1)}` `` and parses it back to a number,
which (the padded month having exactly two digits) is `year*100 +
(month+1)`. -/
def getCurrentMonth (now : JSDate) : Nat :=
  now.year * 100 + (now.month + 1)

/-- Model of `getDateRange`: the first day of the previous month (inclusive) and
the first day of the next month (exclusive), as `YYYY-MM-01` strings,
with year wrap-around at January and December. -/
def getDateRange (now : JSDate) : String × String :=
  let currentMonth := now.month
  let currentYear := now.year
  let prevMonth := if currentMonth = 0 then 11 else currentMonth - 1
  let prevYear := if currentMonth = 0 then currentYear - 1 else currentYear
  let nextMonth := if currentMonth = 11 then 0 else currentMonth + 1
  let nextYear := if currentMonth = 11 then currentYear + 1 else currentYear
  (toString prevYear ++ "-" ++ pad2 (prevMonth + 1) ++ "-01",
   toString nextYear ++ "-" ++ pad2 (nextMonth + 1) ++ "-01")

/-! ## The remote store boundary -/

/-- The remote store as seen by `syncDown`: the rows of each fetched
table/view, plus, per fetch, an optional error the remote returns for
that fetch (`none` = the fetch succeeds with the query's rows). -/
structure RemoteStore where
  clients : List Client
  products : List Product
  client_products : List ClientProduct
  budgets : List Budget
  rep_tasks : List RepTask
  client_followups : List ClientFollowup
  failClients : Option SbError
  failProducts : Option SbError
  failClientProducts : Option SbError
  failBudgets : Option SbError
  failRepTasks : Option SbError
  failClientFollowups : Option SbError

/-- The rows `.in('status', ['active','inactive'])` selects from the
remote `clients` table. -/
def clientsQuery (r : RemoteStore) : List Client :=
  r.clients.filter (fun c =>
    c.status == ClientStatus.active || c.status == ClientStatus.inactive)

/-- The rows `.eq('rep_id', repId).eq('month', currentMonth)` selects
from the remote `budgets` table. -/
def budgetsQuery (r : RemoteStore) (repId : String) (currentMonth : Nat) :
    List Budget :=
  r.budgets.filter (fun b => b.rep_id == repId && b.month == currentMonth)

/-- The rows `.eq('rep_id', repId).gte('end_date', startDate)
.lt('end_date', endDate)` selects from the remote `rep_tasks` table. -/
def repTasksQuery (r : RemoteStore) (repId startDate endDate : String) :
    List RepTask :=
  r.rep_tasks.filter (fun t =>
    t.rep_id == repId && strLeb startDate t.end_date && strLtb t.end_date endDate)

/-- Fetch `supabase.from('clients').select('*').in('status', ['active','inactive'])`. -/
def fetchClients (r : RemoteStore) : Except SbError (List Client) :=
  match r.failClients with
  | some e => .error e
  | none => .ok (clientsQuery r)

/-- Fetch `supabase.from('products').select('*')`. -/
def fetchProducts (r : RemoteStore) : Except SbError (List Product) :=
  match r.failProducts with
  | some e => .error e
  | none => .ok r.products

/-- Fetch `supabase.from('client_products').select('*')`. -/
def fetchClientProducts (r : RemoteStore) : Except SbError (List ClientProduct) :=
  match r.failClientProducts with
  | some e => .error e
  | none => .ok r.client_products

/-- Fetch `supabase.from('budgets').select('*').eq('rep_id', repId).eq('month', currentMonth)`. -/
def fetchBudgets (r : RemoteStore) (repId : String) (currentMonth : Nat) :
    Except SbError (List Budget) :=
  match r.failBudgets with
  | some e => .error e
  | none => .ok (budgetsQuery r repId currentMonth)

/-- Fetch `supabase.from('rep_tasks').select('*').eq('rep_id', repId)
    .gte('end_date', startDate).lt('end_date', endDate)`. -/
def fetchRepTasks (r : RemoteStore) (repId startDate endDate : String) :
    Except SbError (List RepTask) :=
  match r.failRepTasks with
  | some e => .error e
  | none => .ok (repTasksQuery r repId startDate endDate)

/-- Fetch `supabase.from('client_followups').select('*')`. -/
def fetchClientFollowups (r : RemoteStore) : Except SbError (List ClientFollowup) :=
  match r.failClientFollowups with
  | some e => .error e
  | none => .ok r.client_followups

/-! ## `syncDown` (`services/sync.ts`) -/

/-- Model of `syncDown(repId)`: throws immediately if offline; otherwise performs
six fetches in a fixed order, each successful fetch wholesale replacing
the corresponding cached collection, and rethrows the first fetch error
(leaving the collections written so far overwritten and the rest at
their pre-call values).  The result carries the updated store, the list
of remote fetches attempted (by table name, in order), and the outcome:
`ok` `undefined` (`Promise<void>`) or the thrown error. -/
def syncDown (online : Bool) (repId : String) (now : JSDate) (r : RemoteStore)
    (st : LocalStore) : LocalStore × List String × Except JSError JSValue :=
  if online then
    match fetchClients r with
    | .error e => (st, ["clients"], .error (.sbError e))
    | .ok cs =>
      let st1 := { st with clients := cs }
      match fetchProducts r with
      | .error e => (st1, ["clients", "products"], .error (.sbError e))
      | .ok ps =>
        let st2 := { st1 with products := ps }
        match fetchClientProducts r with
        | .error e => (st2, ["clients", "products", "client_products"], .error (.sbError e))
        | .ok cps =>
          let st3 := { st2 with client_products := cps }
          match fetchBudgets r repId (getCurrentMonth now) with
          | .error e => (st3, ["clients", "products", "client_products", "budgets"],
              .error (.sbError e))
          | .ok bs =>
            let st4 := { st3 with budgets := bs }
            match fetchRepTasks r repId (getDateRange now).1 (getDateRange now).2 with
            | .error e => (st4, ["clients", "products", "client_products", "budgets",
                "rep_tasks"], .error (.sbError e))
            | .ok ts =>
              let st5 := { st4 with rep_tasks := ts }
              match fetchClientFollowups r with
              | .error e => (st5, ["clients", "products", "client_products", "budgets",
                  "rep_tasks", "client_followups"], .error (.sbError e))
              | .ok fs =>
                ({ st5 with client_followups := fs },
                 ["clients", "products", "client_products", "budgets",
                  "rep_tasks", "client_followups"], .ok .undef)
  else (st, [], .error (.err "Cannot sync while offline"))

/-! ## `syncUp` (`services/sync.ts`) -/

/-- The remote store as seen by mutation processing: for each kind of
write request, the error the remote returns (`none` = success).  The
response is a function of the request alone, modelling one point-in-time
view of the remote. -/
structure RemoteMutOracle where
  insertResult : String → Payload → Option SbError
  updateResult : String → Payload → String → Option SbError
  upsertResult : String → Payload → Option SbError
  deleteResult : String → String → Option SbError

/-- Model of `processMutation`: dispatches one queue item to the remote per its
operation kind.  An insert error with code `'23505'` (duplicate key) is
swallowed as success; update/delete without a key throw; any other
remote error is thrown. -/
def processMutation (remote : RemoteMutOracle) (m : MutationQueueItem) :
    Except JSError Unit :=
  match m.operation with
  | .insert =>
    match remote.insertResult m.table m.payload with
    | some e => if e.code = "23505" then .ok () else .error (.sbError e)
    | none => .ok ()
  | .update =>
    match m.key with
    | none => .error (.err "Update operation requires a key")
    | some k =>
      match remote.updateResult m.table m.payload k with
      | some e => .error (.sbError e)
      | none => .ok ()
  | .upsert =>
    match remote.upsertResult m.table m.payload with
    | some e => .error (.sbError e)
    | none => .ok ()
  | .delete =>
    match m.key with
    | none => .error (.err "Delete operation requires a key")
    | some k =>
      match remote.deleteResult m.table k with
      | some e => .error (.sbError e)
      | none => .ok ()

/-- The `while ((mutation = await dequeueMutation()) !== null)` loop of
`syncUp`.  Each round shifts the head off the durable queue
(`dequeueMutation`), processes it, and on success runs
`markMutationSynced` on the (already shortened) stored queue and
increments `processedCount`; on failure it re-enqueues a fresh copy of
the mutation (`enqueueMutation` with the same table/operation/payload/key
but the fresh id and timestamp) at the tail and rethrows.  Returns the
stored queue, the trace of mutations processed (in the order they were
dispatched to the remote), and the final `processedCount` or the thrown
error. -/
def syncUpLoop (remote : RemoteMutOracle) (newId ts : String)
    (queue : List MutationQueueItem) (processedCount : Nat)
    (trace : List MutationQueueItem) :
    List MutationQueueItem × List MutationQueueItem × Except JSError Nat :=
  match queue with
  | [] => ([], trace, .ok processedCount)
  | m :: rest =>
    match processMutation remote m with
    | .ok _ =>
      syncUpLoop remote newId ts (markMutationSynced rest m.id)
        (processedCount + 1) (trace ++ [m])
    | .error e =>
      (enqueueMutation rest m.table m.operation m.payload m.key newId ts,
       trace ++ [m], .error e)
termination_by queue.length
decreasing_by simp [markMutationSynced]

/-- Model of `syncUp()`: throws immediately if offline; otherwise drains the
mutation queue head-first, and after a fully successful drain runs
`removeSyncedMutations` on the stored queue.  Resolves with `undefined`
(`Promise<void>`); the internal `processedCount` is only logged.  The
result carries the updated store, the trace of mutations dispatched to
the remote, and the outcome. -/
def syncUp (online : Bool) (remote : RemoteMutOracle) (newId ts : String)
    (st : LocalStore) : LocalStore × List MutationQueueItem × Except JSError JSValue :=
  if online then
    match syncUpLoop remote newId ts st.mutation_queue 0 [] with
    | (q, trace, .ok _count) =>
      ({ st with mutation_queue := removeSyncedMutations q }, trace, .ok .undef)
    | (q, trace, .error e) =>
      ({ st with mutation_queue := q }, trace, .error e)
  else (st, [], .error (.err "Cannot sync while offline"))

/-- The internal `processedCount` that a run of `syncUp`'s drain loop
reaches (the value `syncUp` logs on completion), or the error that
aborted the drain. -/
def syncUpProcessedCount (remote : RemoteMutOracle) (newId ts : String)
    (st : LocalStore) : Except JSError Nat :=
  (syncUpLoop remote newId ts st.mutation_queue 0 []).2.2

/-! ## `withOfflineFallback` (`services/sync.ts`) -/

/-- Model of `withOfflineFallback(supabaseOperation, offlineOperation, fallbackValue)`:
the operations are modelled by their outcomes (a resolved value or a
thrown error).  Offline: try the offline operation, returning
`fallbackValue` if it throws.  Online: try the remote operation; if it
throws, try the offline operation; if that also throws, return
`fallbackValue`.  Total: every path returns a value. -/
def withOfflineFallback {T : Type} (online : Bool)
    (supabaseOperation offlineOperation : Except JSError T)
    (fallbackValue : T) : T :=
  if !online then
    match offlineOperation with
    | .ok v => v
    | .error _ => fallbackValue
  else
    match supabaseOperation with
    | .ok v => v
    | .error _ =>
      match offlineOperation with
      | .ok v => v
      | .error _ => fallbackValue

/-! ## `handleStartVisit` (`pages/Dashboard.tsx`) -/

/-- Outcome of `handleStartVisit`, by its user-facing toasts. -/
inductive StartVisitOutcome where
  | noClientSelected
  | activeVisitExists
  | started
  | failed (e : JSError)
  deriving DecidableEq

/-- Model of `now.toISOString().split('T')[0]`: the date part of an ISO timestamp. -/
def isoDatePart (s : String) : String :=
  String.mk (s.data.takeWhile (fun c => c.toNat ≠ 84))

/-- The `newVisit` row built by `handleStartVisit` (`notes` is `null`). -/
def newVisitPayload (visitId repId clientId nowIso : String) : Payload :=
  [("id", some visitId), ("rep_id", some repId), ("client_id", some clientId),
   ("visit_date", some (isoDatePart nowIso)), ("check_in_time", some nowIso),
   ("notes", none), ("created_at", some nowIso), ("updated_at", some nowIso)]

/-- Model of `handleStartVisit` (Dashboard): rejects if no client is selected or if
an active visit already exists (before building or writing anything);
otherwise inserts the new visit remotely when online (a remote error is
caught and surfaced as a failure toast, leaving the stored active-visit
marker untouched) or enqueues the insert when offline, then stores the
new active-visit marker.  `activeVisit` is the Dashboard state loaded
from `offlineStorage.getActiveVisit()`.  The boolean reports whether a
remote insert was attempted. -/
def handleStartVisit (selectedClient : Option Client)
    (activeVisit : Option ActiveVisit) (online : Bool)
    (remote : RemoteMutOracle) (repId visitId nowIso newMutId : String)
    (st : LocalStore) : StartVisitOutcome × LocalStore × Bool :=
  match selectedClient with
  | none => (.noClientSelected, st, false)
  | some client =>
    match activeVisit with
    | some _ => (.activeVisitExists, st, false)
    | none =>
      let payload := newVisitPayload visitId repId client.id nowIso
      let newActiveVisit : ActiveVisit :=
        { visit_id := visitId, client_id := client.id,
          start_time := nowIso, notes := none }
      if online then
        match remote.insertResult "visits" payload with
        | some e => (.failed (.sbError e), st, true)
        | none => (.started, { st with active_visit := some newActiveVisit }, true)
      else
        let q1 := enqueueMutation st.mutation_queue "visits" Operation.insert
          payload none newMutId nowIso
        let st1 := { st with mutation_queue := q1 }
        (.started, { st1 with active_visit := some newActiveVisit }, false)

/-! ## Concrete fixtures -/

/-- A fresh local store: every collection empty, no active visit. -/
def emptyStore : LocalStore :=
  { clients := [], products := [], visits := [], orders := [], order_items := [],
    client_products := [], rep_tasks := [], budgets := [], client_followups := [],
    active_visit := none, mutation_queue := [] }

/-- An active client row. -/
def exClient1 : Client :=
  { id := "c1", name := "Acme", email := none, phone := none, address := none,
    status := .active, created_at := "2025-01-01" }

/-- An inactive client row. -/
def exClient2 : Client :=
  { id := "c2", name := "Globex", email := none, phone := none, address := none,
    status := .inactive, created_at := "2025-01-02" }

/-- Another active client row. -/
def exClient3 : Client :=
  { id := "c3", name := "Initech", email := none, phone := none, address := none,
    status := .active, created_at := "2025-01-03" }

/-- A product row. -/
def exProduct : Product :=
  { id := "p1", name := "Widget", description := none, price := 100,
    category := none, sku := some "SKU1", created_at := "2025-01-01",
    updated_at := "2025-01-01" }

/-- A queued insert mutation (the spec's `{id:"c1", name:"Acme"}` insert). -/
def exA : MutationQueueItem :=
  { id := "m1", table := "clients", operation := .insert,
    payload := [("id", some "c1"), ("name", some "Acme")], key := none,
    timestamp := "2025-06-01T08:00:00Z", synced := false }

/-- A queued update mutation behind `exA`. -/
def exB : MutationQueueItem :=
  { id := "m2", table := "visits", operation := .update,
    payload := [("notes", some "call back")], key := some "v1",
    timestamp := "2025-06-01T08:00:01Z", synced := false }

/-- Store whose queue is `[exA]`. -/
def stA : LocalStore := { emptyStore with mutation_queue := [exA] }

/-- Store whose queue is `[exA, exB]`. -/
def stAB : LocalStore := { emptyStore with mutation_queue := [exA, exB] }

/-- A remote that accepts every mutation. -/
def acceptAllOracle : RemoteMutOracle :=
  { insertResult := fun _ _ => none, updateResult := fun _ _ _ => none,
    upsertResult := fun _ _ => none, deleteResult := fun _ _ => none }

/-- A non-duplicate remote failure. -/
def exFailure : SbError := { code := "500", message := "remote rejected" }

/-- A remote that rejects every insert with `exFailure` and accepts the
other operations. -/
def rejectInsertOracle : RemoteMutOracle :=
  { insertResult := fun _ _ => some exFailure, updateResult := fun _ _ _ => none,
    upsertResult := fun _ _ => none, deleteResult := fun _ _ => none }

/-- The duplicate-key error a unique-constraint conflict produces. -/
def dupKeyError : SbError :=
  { code := "23505", message := "duplicate key value violates unique constraint" }

/-- A remote on which every insert hits a duplicate key (the row already
exists) and the other operations succeed. -/
def dupKeyOracle : RemoteMutOracle :=
  { insertResult := fun _ _ => some dupKeyError, updateResult := fun _ _ _ => none,
    upsertResult := fun _ _ => none, deleteResult := fun _ _ => none }

/-- June 2025 (JavaScript 0-based month 5); `getDateRange` gives the
window `["2025-05-01", "2025-07-01")`. -/
def exNow : JSDate := { year := 2025, month := 5 }

/-- A task of rep `"rep-1"` due inside the window. -/
def exTask1 : RepTask :=
  { id := "t1", rep_id := "rep-1", title := "Call Acme", description := none,
    end_date := "2025-06-15", status := .pending, priority := .high,
    created_at := "2025-06-01", updated_at := "2025-06-01" }

/-- A task of rep `"rep-1"` due before the window. -/
def exTask2 : RepTask :=
  { id := "t2", rep_id := "rep-1", title := "Old task", description := none,
    end_date := "2025-03-01", status := .pending, priority := .low,
    created_at := "2025-03-01", updated_at := "2025-03-01" }

/-- A task of another rep due inside the window. -/
def exTask3 : RepTask :=
  { id := "t3", rep_id := "rep-2", title := "Other rep", description := none,
    end_date := "2025-06-15", status := .pending, priority := .low,
    created_at := "2025-06-01", updated_at := "2025-06-01" }

/-- The spec's sync-down scenario: a remote returning 3 clients and
nothing else, every fetch succeeding. -/
def exRemote : RemoteStore :=
  { clients := [exClient1, exClient2, exClient3], products := [],
    client_products := [], budgets := [], rep_tasks := [],
    client_followups := [], failClients := none, failProducts := none,
    failClientProducts := none, failBudgets := none, failRepTasks := none,
    failClientFollowups := none }

/-- The store `exRemote` with three rep tasks (one in-window for `"rep-1"`, one too
old, one for another rep). -/
def exRemoteTasks : RemoteStore := { exRemote with rep_tasks := [exTask1, exTask2, exTask3] }

/-- An active-visit marker. -/
def exActiveVisit : ActiveVisit :=
  { visit_id := "v1", client_id := "c1", start_time := "2025-06-01T09:00:00Z",
    notes := none }

/-- A pre-call local store with nonempty collections, a pending mutation
and an active visit, to exercise overwriting and non-interference. -/
def preStore : LocalStore :=
  { emptyStore with
    products := [exProduct],
    rep_tasks := [exTask2],
    active_visit := some exActiveVisit,
    mutation_queue := [exB] }

/-- The store `syncDown true "rep-1" exNow exRemote preStore` produces. -/
def downAfterStore : LocalStore :=
  { preStore with
    clients := [exClient1, exClient2, exClient3],
    products := [],
    client_products := [],
    budgets := [],
    rep_tasks := [],
    client_followups := [] }

/-- The store `syncDown true "rep-1" exNow exRemoteTasks emptyStore`
produces: only the in-window task of `"rep-1"` is cached. -/
def tasksAfterStore : LocalStore :=
  { emptyStore with
    clients := [exClient1, exClient2, exClient3],
    rep_tasks := [exTask1] }

/-! ## Helper lemmas -/

theorem markMutationSynced_of_not_mem (q : List MutationQueueItem) (mid : String)
    (h : ∀ m ∈ q, m.id ≠ mid) : markMutationSynced q mid = q := by
  induction q with
  | nil => rfl
  | cons m rest ih =>
    have hm : m.id ≠ mid := h m (List.mem_cons_self _ _)
    simp only [markMutationSynced, List.map_cons, if_neg hm]
    have := ih (fun x hx => h x (List.mem_cons_of_mem _ hx))
    simpa [markMutationSynced] using this

theorem syncUpLoop_nil (remote : RemoteMutOracle) (i t : String) (c : Nat)
    (tr : List MutationQueueItem) :
    syncUpLoop remote i t [] c tr = ([], tr, .ok c) := by
  simp [syncUpLoop]

theorem syncUpLoop_cons_ok (remote : RemoteMutOracle) (i t : String)
    (m : MutationQueueItem) (rest : List MutationQueueItem) (c : Nat)
    (tr : List MutationQueueItem) (h : processMutation remote m = .ok ()) :
    syncUpLoop remote i t (m :: rest) c tr =
      syncUpLoop remote i t (markMutationSynced rest m.id) (c + 1) (tr ++ [m]) := by
  rw [syncUpLoop, h]

theorem syncUpLoop_cons_err (remote : RemoteMutOracle) (i t : String)
    (m : MutationQueueItem) (rest : List MutationQueueItem) (c : Nat)
    (tr : List MutationQueueItem) (e : JSError)
    (h : processMutation remote m = .error e) :
    syncUpLoop remote i t (m :: rest) c tr =
      (enqueueMutation rest m.table m.operation m.payload m.key i t,
       tr ++ [m], .error e) := by
  rw [syncUpLoop, h]

theorem syncUpLoop_drain (remote : RemoteMutOracle) (i t : String)
    (pre rest : List MutationQueueItem) (c : Nat) (tr : List MutationQueueItem)
    (hok : ∀ m ∈ pre, processMutation remote m = .ok ())
    (hnd : ((pre ++ rest).map (fun m => m.id)).Nodup) :
    syncUpLoop remote i t (pre ++ rest) c tr =
      syncUpLoop remote i t rest (c + pre.length) (tr ++ pre) := by
  induction pre generalizing c tr with
  | nil => simp
  | cons m pre ih =>
    have hm : processMutation remote m = .ok () := hok m (List.mem_cons_self _ _)
    rw [List.cons_append, List.map_cons, List.nodup_cons] at hnd
    have hnotin : ∀ x ∈ pre ++ rest, x.id ≠ m.id := by
      intro x hx hxid
      exact hnd.1 (hxid ▸ List.mem_map_of_mem _ hx)
    rw [List.cons_append, syncUpLoop_cons_ok _ _ _ _ _ _ _ hm,
        markMutationSynced_of_not_mem _ _ hnotin,
        ih (c + 1) (tr ++ [m]) (fun x hx => hok x (List.mem_cons_of_mem _ hx)) hnd.2]
    have hc : c + 1 + pre.length = c + (m :: pre).length := by
      simp [List.length_cons]; omega
    have ht : tr ++ [m] ++ pre = tr ++ m :: pre := by simp
    rw [hc, ht]

theorem syncDown_success_eq (repId : String) (now : JSDate)
    (r : RemoteStore) (st : LocalStore)
    (h1 : r.failClients = none) (h2 : r.failProducts = none)
    (h3 : r.failClientProducts = none) (h4 : r.failBudgets = none)
    (h5 : r.failRepTasks = none) (h6 : r.failClientFollowups = none) :
    syncDown true repId now r st =
      ({ st with
         clients := clientsQuery r,
         products := r.products,
         client_products := r.client_products,
         budgets := budgetsQuery r repId (getCurrentMonth now),
         rep_tasks := repTasksQuery r repId (getDateRange now).1 (getDateRange now).2,
         client_followups := r.client_followups },
       ["clients", "products", "client_products", "budgets", "rep_tasks",
        "client_followups"], .ok .undef) := by
  simp [syncDown, fetchClients, fetchProducts, fetchClientProducts,
    fetchBudgets, fetchRepTasks, fetchClientFollowups, h1, h2, h3, h4, h5, h6]

theorem syncUp_single_insert_drain (remote : RemoteMutOracle)
    (i t : String) (st : LocalStore) (m : MutationQueueItem)
    (hq : st.mutation_queue = [m])
    (hm : processMutation remote m = .ok ()) :
    syncUp true remote i t st = ({ st with mutation_queue := [] }, [m], .ok .undef)
    ∧ syncUpProcessedCount remote i t st = .ok 1 := by
  constructor
  · simp only [syncUp, if_pos, hq]
    rw [syncUpLoop_cons_ok _ _ _ _ _ _ _ hm]
    simp [markMutationSynced, syncUpLoop_nil, removeSyncedMutations]
  · simp only [syncUpProcessedCount, hq]
    rw [syncUpLoop_cons_ok _ _ _ _ _ _ _ hm]
    simp [markMutationSynced, syncUpLoop_nil]

/-! ## Claim theorems -/

/-- C1: if every entry before `A` in the queue processes successfully and
processing `A` throws, `syncUp` dispatches exactly the preceding entries
and then `A` to the remote in FIFO order, removes `A` from the head,
appends a fresh entry with the same table/operation/payload/key but the
new id, new timestamp and `synced = false` to the tail, and rejects with
`A`'s error without touching any later entry; the fresh entry's id
differs from `A`'s. -/
theorem syncUp_failure_requeues_and_aborts (remote : RemoteMutOracle)
    (newId ts : String) (st : LocalStore)
    (pre post : List MutationQueueItem) (A : MutationQueueItem) (e : JSError)
    (hq : st.mutation_queue = pre ++ A :: post)
    (hpre : ∀ m ∈ pre, processMutation remote m = .ok ())
    (hfail : processMutation remote A = .error e)
    (hnd : ((pre ++ A :: post).map (fun m => m.id)).Nodup)
    (hfresh : newId ≠ A.id) :
    syncUp true remote newId ts st =
      ({ st with mutation_queue :=
          enqueueMutation post A.table A.operation A.payload A.key newId ts },
       pre ++ [A], .error e)
    ∧ ∀ f ∈ enqueueMutation post A.table A.operation A.payload A.key newId ts,
        f ∉ post → f.id ≠ A.id ∧ f.timestamp = ts ∧ f.synced = false := by
  constructor
  · simp only [syncUp, if_pos, hq]
    rw [syncUpLoop_drain remote newId ts pre (A :: post) 0 [] hpre hnd,
        syncUpLoop_cons_err _ _ _ _ _ _ _ _ hfail]
    simp
  · intro f hf hfp
    simp only [enqueueMutation, List.mem_append, List.mem_singleton] at hf
    rcases hf with hf | hf
    · exact absurd hf hfp
    · subst hf; exact ⟨hfresh, rfl, rfl⟩

/-- Witness for C1 at the spec's `[A, B]` scenario: `A` is an insert the
remote rejects with a non-duplicate error; afterwards the queue is `B`
followed by a fresh copy of `A` (new id `"m3"`, new timestamp, not the
original `A`), and the call rejects with the remote's error. -/
theorem syncUp_failure_requeues_and_aborts_witness :
    syncUp true rejectInsertOracle "m3" "TS2" stAB =
      ({ stAB with mutation_queue :=
          [exB, { id := "m3", table := "clients", operation := .insert,
                  payload := [("id", some "c1"), ("name", some "Acme")],
                  key := none, timestamp := "TS2", synced := false }] },
       [exA], .error (.sbError exFailure)) := by
  have h := syncUp_failure_requeues_and_aborts rejectInsertOracle "m3" "TS2" stAB
    [] [exB] exA (.sbError exFailure) rfl (by simp)
    (by simp [processMutation, exA, rejectInsertOracle, exFailure])
    (by decide) (by decide)
  simpa [enqueueMutation, exA, exB] using h.1

/-- C2: an insert whose remote failure is a duplicate-key conflict (code
`'23505'`) is treated as already applied: with the queue holding that one
insert, the first online `syncUp` run drains it with no error, and a
second run on the resulting store also reports no error, both leaving
the queue empty. -/
theorem syncUp_duplicate_insert_idempotent (remote : RemoteMutOracle)
    (i1 t1 i2 t2 : String) (st : LocalStore) (m : MutationQueueItem) (e : SbError)
    (hq : st.mutation_queue = [m])
    (hop : m.operation = .insert)
    (hdup : remote.insertResult m.table m.payload = some e)
    (hcode : e.code = "23505") :
    syncUp true remote i1 t1 st = ({ st with mutation_queue := [] }, [m], .ok .undef)
    ∧ syncUp true remote i2 t2 { st with mutation_queue := [] } =
        ({ st with mutation_queue := [] }, [], .ok .undef) := by
  have hm : processMutation remote m = .ok () := by
    simp [processMutation, hop, hdup, hcode]
  constructor
  · simp only [syncUp, if_pos, hq]
    rw [syncUpLoop_cons_ok _ _ _ _ _ _ _ hm]
    simp [markMutationSynced, syncUpLoop_nil, removeSyncedMutations]
  · simp only [syncUp, if_pos]
    rw [syncUpLoop_nil]
    simp [removeSyncedMutations]

/-- Witness for C2: the queue `[exA]` against a remote where the inserted
row already exists (`dupKeyOracle`); both runs succeed and the queue
ends empty. -/
theorem syncUp_duplicate_insert_idempotent_witness :
    syncUp true dupKeyOracle "m7" "T7" stA =
      ({ stA with mutation_queue := [] }, [exA], .ok .undef)
    ∧ syncUp true dupKeyOracle "m8" "T8" { stA with mutation_queue := [] } =
        ({ stA with mutation_queue := [] }, [], .ok .undef) :=
  syncUp_duplicate_insert_idempotent dupKeyOracle "m7" "T7" "m8" "T8" stA exA
    dupKeyError rfl rfl rfl rfl

/-- C3, as stated, is false: `syncUp` is `Promise<void>` and resolves
with `undefined`, not with the processed count.  On the concrete queue
`[exA]` with a remote that accepts the insert, the drain fully succeeds
yet the resolved value is `undefined`, which is not the number `1`. -/
theorem syncUp_resolves_undefined_not_count :
    (syncUp true acceptAllOracle "m9" "T9" stA).2.2 = .ok JSValue.undef
    ∧ (Except.ok JSValue.undef : Except JSError JSValue) ≠ .ok (.num 1) := by
  constructor
  · simp only [syncUp, if_pos]
    rw [show stA.mutation_queue = [exA] from rfl,
        syncUpLoop_cons_ok _ _ _ _ _ _ _ (by simp [processMutation, exA, acceptAllOracle])]
    simp [markMutationSynced, syncUpLoop_nil]
  · simp

/-- C3 (amended): on a fully successful drain of a queue holding exactly
one insert the remote accepts, `syncUp` resolves with no value
(`undefined`), the queue is empty afterwards, and the internal
processed count that it logs is `1`. -/
theorem syncUp_single_insert_success (remote : RemoteMutOracle)
    (i t : String) (st : LocalStore) (m : MutationQueueItem)
    (hq : st.mutation_queue = [m])
    (hop : m.operation = .insert)
    (hacc : remote.insertResult m.table m.payload = none) :
    syncUp true remote i t st = ({ st with mutation_queue := [] }, [m], .ok .undef)
    ∧ syncUpProcessedCount remote i t st = .ok 1 :=
  syncUp_single_insert_drain remote i t st m hq
    (by simp [processMutation, hop, hacc])

/-- Witness for the amended C3: queue `[exA]`, remote accepts the insert;
`syncUp` resolves `undefined` with the queue empty and the logged
processed count is `1`. -/
theorem syncUp_single_insert_success_witness :
    syncUp true acceptAllOracle "m9" "T9" stA =
      ({ stA with mutation_queue := [] }, [exA], .ok .undef)
    ∧ syncUpProcessedCount acceptAllOracle "m9" "T9" stA = .ok 1 :=
  syncUp_single_insert_success acceptAllOracle "m9" "T9" stA exA rfl rfl rfl

/-- C5: while the online flag is false, both `syncUp` and
`syncDown(repId)` fail immediately with the error message
`"Cannot sync while offline"`, perform no remote dispatch or fetch
(empty trace, so nothing was dequeued or requested), and leave the
mutation queue and every cached collection exactly as they were. -/
theorem sync_offline_fails_fast (remote : RemoteMutOracle) (r : RemoteStore)
    (repId i t : String) (now : JSDate) (st : LocalStore) :
    syncUp false remote i t st = (st, [], .error (.err "Cannot sync while offline"))
    ∧ syncDown false repId now r st =
        (st, [], .error (.err "Cannot sync while offline")) := by
  constructor <;> rfl

/-- C6: `withOfflineFallback` never throws and follows the documented
policy: offline, its result is independent of the remote operation and
is the offline operation's value, or the fallback if that operation
throws; online, it is the remote value, else the offline value, else
the fallback. -/
theorem withOfflineFallback_policy (T : Type)
    (remoteOp remoteOp2 localOp : Except JSError T) (fallbackValue : T) :
    withOfflineFallback false remoteOp localOp fallbackValue =
      withOfflineFallback false remoteOp2 localOp fallbackValue
    ∧ withOfflineFallback false remoteOp localOp fallbackValue =
        (match localOp with | .ok v => v | .error _ => fallbackValue)
    ∧ withOfflineFallback true remoteOp localOp fallbackValue =
        (match remoteOp with
         | .ok v => v
         | .error _ =>
           match localOp with | .ok v => v | .error _ => fallbackValue) := by
  refine ⟨?_, ?_, ?_⟩ <;> simp [withOfflineFallback]

/-- C7 is the spec's intent but not what the code does:
`dequeueMutation` durably removes the head entry from the queue before
it is processed, so after `exA` is dequeued the stored queue is already
empty, `markMutationSynced(exA.id)` marks nothing (the entry is gone
rather than retained with `synced = true`), and an interruption before
the final purge leaves no synced copy of `exA` in the queue; the full
run ends with the queue empty all the same. -/
theorem dequeue_removes_entry_before_mark :
    dequeueMutation [exA] = some (exA, [])
    ∧ markMutationSynced [] exA.id = []
    ∧ (∀ m ∈ markMutationSynced [] exA.id, ¬(m.id = exA.id ∧ m.synced = true))
    ∧ syncUp true acceptAllOracle "m9" "T9" stA =
        ({ stA with mutation_queue := [] }, [exA], .ok .undef) := by
  refine ⟨rfl, rfl, by simp [markMutationSynced], ?_⟩
  exact (syncUp_single_insert_drain acceptAllOracle "m9" "T9" stA exA rfl
    (by simp [processMutation, exA, acceptAllOracle])).1

/-- C4: online, `syncDown(repId)` attempts the six fetches in order and
wholesale replaces each cached collection with exactly the rows its
fetch returned (no merge with prior contents, all other state
untouched); and whenever an individual fetch fails, the error is
propagated, the collections written before the failure remain
overwritten, and the remaining collections (and everything else) keep
their pre-call values. -/
theorem syncDown_overwrites_collections (repId : String) (now : JSDate)
    (r : RemoteStore) (st : LocalStore) :
    (r.failClients = none → r.failProducts = none → r.failClientProducts = none →
     r.failBudgets = none → r.failRepTasks = none → r.failClientFollowups = none →
     syncDown true repId now r st =
       ({ st with
          clients := clientsQuery r,
          products := r.products,
          client_products := r.client_products,
          budgets := budgetsQuery r repId (getCurrentMonth now),
          rep_tasks := repTasksQuery r repId (getDateRange now).1 (getDateRange now).2,
          client_followups := r.client_followups },
        ["clients", "products", "client_products", "budgets", "rep_tasks",
         "client_followups"], .ok .undef))
    ∧ (∀ e, r.failClients = some e →
        syncDown true repId now r st = (st, ["clients"], .error (.sbError e)))
    ∧ (∀ e, r.failClients = none → r.failProducts = some e →
        syncDown true repId now r st =
          ({ st with clients := clientsQuery r },
           ["clients", "products"], .error (.sbError e)))
    ∧ (∀ e, r.failClients = none → r.failProducts = none →
        r.failClientProducts = some e →
        syncDown true repId now r st =
          ({ st with clients := clientsQuery r, products := r.products },
           ["clients", "products", "client_products"], .error (.sbError e)))
    ∧ (∀ e, r.failClients = none → r.failProducts = none →
        r.failClientProducts = none → r.failBudgets = some e →
        syncDown true repId now r st =
          ({ st with
             clients := clientsQuery r,
             products := r.products,
             client_products := r.client_products },
           ["clients", "products", "client_products", "budgets"],
           .error (.sbError e)))
    ∧ (∀ e, r.failClients = none → r.failProducts = none →
        r.failClientProducts = none → r.failBudgets = none →
        r.failRepTasks = some e →
        syncDown true repId now r st =
          ({ st with
             clients := clientsQuery r,
             products := r.products,
             client_products := r.client_products,
             budgets := budgetsQuery r repId (getCurrentMonth now) },
           ["clients", "products", "client_products", "budgets", "rep_tasks"],
           .error (.sbError e)))
    ∧ (∀ e, r.failClients = none → r.failProducts = none →
        r.failClientProducts = none → r.failBudgets = none →
        r.failRepTasks = none → r.failClientFollowups = some e →
        syncDown true repId now r st =
          ({ st with
             clients := clientsQuery r,
             products := r.products,
             client_products := r.client_products,
             budgets := budgetsQuery r repId (getCurrentMonth now),
             rep_tasks := repTasksQuery r repId (getDateRange now).1 (getDateRange now).2 },
           ["clients", "products", "client_products", "budgets", "rep_tasks",
            "client_followups"], .error (.sbError e))) := by
  refine ⟨?_, ?_, ?_, ?_, ?_, ?_, ?_⟩ <;>
    intros <;>
    simp_all [syncDown, fetchClients, fetchProducts, fetchClientProducts,
      fetchBudgets, fetchRepTasks, fetchClientFollowups]

/-- Witness for C4 at the spec's scenario: a remote returning 3 clients
and nothing else, over a pre-call store with nonempty products and
tasks; afterwards `clients` holds exactly those 3 rows, the other five
fetched collections are empty (the nonempty pre-call values are
overwritten), and the visits, orders, active visit and mutation queue
are untouched. -/
theorem syncDown_overwrites_collections_witness :
    syncDown true "rep-1" exNow exRemote preStore =
      ({ preStore with
         clients := [exClient1, exClient2, exClient3],
         products := [],
         client_products := [],
         budgets := [],
         rep_tasks := [],
         client_followups := [] },
       ["clients", "products", "client_products", "budgets", "rep_tasks",
        "client_followups"], .ok .undef) := by
  have h := (syncDown_overwrites_collections "rep-1" exNow exRemote preStore).1
    rfl rfl rfl rfl rfl rfl
  simpa [clientsQuery, budgetsQuery, repTasksQuery, exRemote,
    exClient1, exClient2, exClient3] using h

/-- C8: the clients fetch keeps active and inactive clients alike, so
every client row of the remote clients table appears in the cached
clients collection after any successful `syncDown`. -/
theorem syncDown_clients_all_statuses (repId : String) (now : JSDate)
    (r : RemoteStore) (st st' : LocalStore) (tr : List String) (v : JSValue)
    (hrun : syncDown true repId now r st = (st', tr, .ok v)) :
    ∀ c ∈ r.clients, c ∈ st'.clients := by
  cases h1 : r.failClients with
  | some e => simp [syncDown, fetchClients, h1] at hrun
  | none =>
  cases h2 : r.failProducts with
  | some e => simp [syncDown, fetchClients, fetchProducts, h1, h2] at hrun
  | none =>
  cases h3 : r.failClientProducts with
  | some e =>
    simp [syncDown, fetchClients, fetchProducts, fetchClientProducts,
      h1, h2, h3] at hrun
  | none =>
  cases h4 : r.failBudgets with
  | some e =>
    simp [syncDown, fetchClients, fetchProducts, fetchClientProducts,
      fetchBudgets, h1, h2, h3, h4] at hrun
  | none =>
  cases h5 : r.failRepTasks with
  | some e =>
    simp [syncDown, fetchClients, fetchProducts, fetchClientProducts,
      fetchBudgets, fetchRepTasks, h1, h2, h3, h4, h5] at hrun
  | none =>
  cases h6 : r.failClientFollowups with
  | some e =>
    simp [syncDown, fetchClients, fetchProducts, fetchClientProducts,
      fetchBudgets, fetchRepTasks, fetchClientFollowups,
      h1, h2, h3, h4, h5, h6] at hrun
  | none =>
    rw [syncDown_success_eq repId now r st h1 h2 h3 h4 h5 h6] at hrun
    obtain ⟨hst, -, -⟩ := Prod.mk.injEq .. ▸ hrun
    intro c hc
    rw [← hst]
    simp only [clientsQuery, List.mem_filter]
    refine ⟨hc, ?_⟩
    cases hcs : c.status <;> simp

/-- Witness for C8: after the concrete successful `syncDown` over
`exRemote`, the inactive client `exClient2` appears in the cached
clients collection. -/
theorem syncDown_clients_all_statuses_witness :
    exClient2 ∈ downAfterStore.clients :=
  syncDown_clients_all_statuses "rep-1" exNow exRemote preStore downAfterStore
    ["clients", "products", "client_products", "budgets", "rep_tasks",
     "client_followups"] .undef (by decide) exClient2 (by decide)

/-- C9: after any successful `syncDown(repId)`, a task is in the cached
rep-tasks collection exactly when it is a remote task of `repId` whose
due date (`end_date`) lies in the month window `getDateRange` computes:
at or after the first day of the previous month and strictly before the
first day of the next month. -/
theorem syncDown_repTasks_window (repId : String) (now : JSDate)
    (r : RemoteStore) (st st' : LocalStore) (tr : List String) (v : JSValue)
    (hrun : syncDown true repId now r st = (st', tr, .ok v)) :
    ∀ tk : RepTask, tk ∈ st'.rep_tasks ↔
      (tk ∈ r.rep_tasks ∧ tk.rep_id = repId ∧
       strLeb (getDateRange now).1 tk.end_date = true ∧
       strLtb tk.end_date (getDateRange now).2 = true) := by
  cases h1 : r.failClients with
  | some e => simp [syncDown, fetchClients, h1] at hrun
  | none =>
  cases h2 : r.failProducts with
  | some e => simp [syncDown, fetchClients, fetchProducts, h1, h2] at hrun
  | none =>
  cases h3 : r.failClientProducts with
  | some e =>
    simp [syncDown, fetchClients, fetchProducts, fetchClientProducts,
      h1, h2, h3] at hrun
  | none =>
  cases h4 : r.failBudgets with
  | some e =>
    simp [syncDown, fetchClients, fetchProducts, fetchClientProducts,
      fetchBudgets, h1, h2, h3, h4] at hrun
  | none =>
  cases h5 : r.failRepTasks with
  | some e =>
    simp [syncDown, fetchClients, fetchProducts, fetchClientProducts,
      fetchBudgets, fetchRepTasks, h1, h2, h3, h4, h5] at hrun
  | none =>
  cases h6 : r.failClientFollowups with
  | some e =>
    simp [syncDown, fetchClients, fetchProducts, fetchClientProducts,
      fetchBudgets, fetchRepTasks, fetchClientFollowups,
      h1, h2, h3, h4, h5, h6] at hrun
  | none =>
    rw [syncDown_success_eq repId now r st h1 h2 h3 h4 h5 h6] at hrun
    obtain ⟨hst, -, -⟩ := Prod.mk.injEq .. ▸ hrun
    intro tk
    rw [← hst]
    simp [repTasksQuery, List.mem_filter, Bool.and_eq_true, beq_iff_eq,
      and_assoc]

/-- Witness for C9: with three remote tasks (`exTask1` of `"rep-1"` due
`2025-06-15`, `exTask2` of `"rep-1"` due `2025-03-01`, `exTask3` of
another rep), after the concrete successful `syncDown` in June 2025 the
in-window task `exTask1` satisfies the characterization. -/
theorem syncDown_repTasks_window_witness :
    exTask1 ∈ tasksAfterStore.rep_tasks ↔
      (exTask1 ∈ exRemoteTasks.rep_tasks ∧ exTask1.rep_id = "rep-1" ∧
       strLeb (getDateRange exNow).1 exTask1.end_date = true ∧
       strLtb exTask1.end_date (getDateRange exNow).2 = true) :=
  syncDown_repTasks_window "rep-1" exNow exRemoteTasks emptyStore tasksAfterStore
    ["clients", "products", "client_products", "budgets", "rep_tasks",
     "client_followups"] .undef (by decide) exTask1

/-- C10: when the Dashboard's loaded active-visit marker is non-null and
a client is selected, `handleStartVisit` returns the
"end your current visit first" user-facing error, attempts no remote
insert, enqueues nothing, and leaves the whole local store — in
particular the stored active-visit marker — unchanged, whatever the
online flag and remote say. -/
theorem handleStartVisit_rejects_when_active (client : Client)
    (av : ActiveVisit) (online : Bool) (remote : RemoteMutOracle)
    (repId visitId nowIso newMutId : String) (st : LocalStore) :
    handleStartVisit (some client) (some av) online remote repId visitId
      nowIso newMutId st = (.activeVisitExists, st, false) := rfl

end DariaRep
